import Mathlib

/-!
Verification development for the foosball statistics aggregation engine.

The TypeScript sources are embedded shallowly:
* JS numbers holding match scores and counters become `Int`;
* ISO-8601 timestamp strings become `Timestamp := Int` (milliseconds since
  the UTC epoch); lexicographic comparison of ISO strings coincides with
  numeric order on this model, and the server runs with TZ=UTC so the
  local-time accessors used in `getISOWeekNumber` agree with the UTC ones;
* Firestore documents become Lean structures; an absent numeric field reads
  as 0 (the code always defends with `|| 0`, and `FieldValue.increment`
  treats a missing field as 0), so numeric fields are plain `Int`;
* a document that may not exist is an `Option`.
-/

namespace Foosball

/-- Model of an ISO-8601 timestamp string: milliseconds since the UTC epoch. -/
abbrev Timestamp := Int

/-- `PeriodType` from `time-based-stats.interface.ts`: `'daily' | 'weekly'`. -/
inductive PeriodType where
  | daily
  | weekly
deriving DecidableEq

/-- Civil date from days since 1970-01-01 (proleptic Gregorian calendar);
models the date components a JS `Date` exposes via `getUTCFullYear`,
`getUTCMonth`+1 and `getUTCDate`. -/
def civilFromDays (z0 : Int) : Int × Int × Int :=
  let z := z0 + 719468
  let era := z.ediv 146097
  let doe := z.emod 146097
  let yoe := (doe - doe.ediv 1460 + doe.ediv 36524 - doe.ediv 146096).ediv 365
  let y := yoe + era * 400
  let doy := doe - (365 * yoe + yoe.ediv 4 - yoe.ediv 100)
  let mp := (5 * doy + 2).ediv 153
  let d := doy - (153 * mp + 2).ediv 5 + 1
  let m := mp + (if mp < 10 then 3 else -9)
  (if m ≤ 2 then y + 1 else y, m, d)

/-- Days since 1970-01-01 of a civil date; models `Date.UTC(y, m-1, d)`
divided by 86400000. -/
def daysFromCivil (y m d : Int) : Int :=
  let y' := if m ≤ 2 then y - 1 else y
  let era := y'.ediv 400
  let yoe := y' - era * 400
  let mp := if m > 2 then m - 3 else m + 9
  let doy := (153 * mp + 2).ediv 5 + d - 1
  let doe := yoe * 365 + yoe.ediv 4 - yoe.ediv 100 + doy
  era * 146097 + doe - 719468

/-- JS `Date.prototype.getUTCDay`: 0 = Sunday … 6 = Saturday
(1970-01-01 was a Thursday). -/
def jsDayOfWeek (z : Int) : Int :=
  (z + 4).emod 7

/-- The day (days since epoch) a timestamp falls on, in UTC. -/
def dayOfTimestamp (t : Timestamp) : Int :=
  t.ediv 86400000

/-- JS `Number.prototype.toString` for the small non-negative integers that
appear in the ids, then `padStart(2, '0')`. -/
def pad2 (n : Int) : String :=
  if n < 10 then "0" ++ toString n else toString n

/-- `getISOWeekNumber` from the utils source: shift the date to the Thursday
of its ISO week, then count weeks from January 1 of that Thursday's year
(`Math.ceil((diffDays + 1) / 7)`). The input is the day the `Date` argument
falls on. -/
def getISOWeekNumber (z : Int) : Int :=
  let dow := jsDayOfWeek z
  let thursday := z + 4 - (if dow = 0 then 7 else dow)
  let thursdayYear := (civilFromDays thursday).1
  let yearStart := daysFromCivil thursdayYear 1 1
  (thursday - yearStart + 1 + 6).ediv 7

/-- `getTimePeriodIds` from the utils source: daily id `YYYY-MM-DD` from the
UTC calendar date, weekly id `` `${year}-W${weekNumber}` `` where `year` is
`date.getUTCFullYear()` — the timestamp's own calendar year — and
`weekNumber` is `getISOWeekNumber(date)`. -/
def getTimePeriodIds (t : Timestamp) : String × String :=
  let z := dayOfTimestamp t
  let ymd := civilFromDays z
  let year := ymd.1
  let month := ymd.2.1
  let day := ymd.2.2
  let dailyId := toString year ++ "-" ++ pad2 month ++ "-" ++ pad2 day
  let weekNumber := getISOWeekNumber z
  let weeklyId := toString year ++ "-W" ++ pad2 weekNumber
  (dailyId, weeklyId)

/-- Modelled from the spec: the ISO-8601 weekly identifier, whose year
component is the ISO year of the Thursday of the timestamp's ISO week
("shift date to the Thursday of its ISO week, take the ISO year of that
Thursday"), with the same nearest-Thursday week number. -/
def specIsoWeeklyId (t : Timestamp) : String :=
  let z := dayOfTimestamp t
  let dow := jsDayOfWeek z
  let thursday := z + 4 - (if dow = 0 then 7 else dow)
  let isoYear := (civilFromDays thursday).1
  toString isoYear ++ "-W" ++ pad2 (getISOWeekNumber z)

/-- `IMatchResult` as used by the statistics and match services: the ids of
both teams, the final score pair, the outcome code `toto` (1 = home won,
2 = away won) and the match date. `matchDate` is optional in
`generateStats` (`matchResult.matchDate || nowISO`); the backfill job skips
a match whose `matchDate` is missing. -/
structure MatchResult where
  homeTeamIds : List String
  awayTeamIds : List String
  finalScore : Int × Int
  toto : Int
  matchDate : Option Timestamp
deriving DecidableEq

/-- Modelled from the spec: `checkFlawlessVictory` (not under src/; spec:
"Humiliation: a win where the loser scored zero against a winning score of
10 or 11"). -/
def checkFlawlessVictory (score : Int × Int) : Bool :=
  (min score.1 score.2 = 0) && (max score.1 score.2 = 10 || max score.1 score.2 = 11)

/-- Modelled from the spec: `checkSuckerPunch` (not under src/; spec:
"Sucker-punch: a win with a final score of 11", "`hasSuckerPunch` (winning
score is exactly 11)"). -/
def checkSuckerPunch (score : Int × Int) : Bool :=
  max score.1 score.2 = 11

/-- Modelled from the spec: `checkIfDuplicateExists` (not under src/; spec
rule 3: "No player id appears on both teams" — the source calls it on the
concatenation of both teams, so it reports any repeated id in the list). -/
def checkIfDuplicateExists (l : List String) : Bool :=
  match l with
  | [] => false
  | x :: xs => xs.contains x || checkIfDuplicateExists xs

/-- The distinct rejections thrown by
`MatchService.validateAddMatchResultInput`, one per `throw new Error(...)`
site, in source order. -/
inductive RejectionReason where
  | emptyHomeTeam
  | emptyAwayTeam
  | invalidTeamSizes
  | invalidScoreFormat
  | scoreExceedsMax
  | tieAt10
  | tieAt11
  | elevenOpponentAbove10
  | tenOpponentAtLeast10
  | duplicatePlayer
  | invalidMatchDate
deriving DecidableEq

/-- `MatchService.validateAddMatchResultInput`. Returns the first failing
rule's rejection, or `Except.ok warn` where `warn` records the non-fatal
"neither team reached 10" console warning. The score argument is already a
pair of numbers in the model, so of the score-format check only the
negativity test remains. `parses` stands for the external JS `Date` parser
used by the final match-date rule. -/
def validateAddMatchResultInput (parses : String → Bool)
    (homeTeamIds awayTeamIds : List String) (finalScore : Int × Int)
    (matchDate : Option String) : Except RejectionReason Bool :=
  if homeTeamIds = [] then .error .emptyHomeTeam
  else if awayTeamIds = [] then .error .emptyAwayTeam
  else if homeTeamIds.length ≠ awayTeamIds.length ∨ homeTeamIds.length > 2 ∨
      homeTeamIds.length < 1 then .error .invalidTeamSizes
  else if finalScore.1 < 0 ∨ finalScore.2 < 0 then .error .invalidScoreFormat
  else
    let score1 := finalScore.1
    let score2 := finalScore.2
    if score1 > 11 ∨ score2 > 11 then .error .scoreExceedsMax
    else
      let maxScore := max score1 score2
      let minScore := min score1 score2
      -- the first branch only emits a console warning and falls through
      let warn := maxScore < 10 && !(score1 = 0 && score2 = 0)
      let scoreErr : Option RejectionReason :=
        if maxScore < 10 then none
        else if maxScore = 10 ∧ minScore = 10 then some .tieAt10
        else if maxScore = 11 ∧ minScore = 11 then some .tieAt11
        else if maxScore = 11 ∧ minScore > 10 then some .elevenOpponentAbove10
        else if maxScore = 10 ∧ minScore ≥ 10 then some .tenOpponentAtLeast10
        else none
      match scoreErr with
      | some e => .error e
      | none =>
        if checkIfDuplicateExists (homeTeamIds ++ awayTeamIds) then
          .error .duplicatePlayer
        else match matchDate with
          | some s => if parses s then .ok warn else .error .invalidMatchDate
          | none => .ok warn

/-- `IEntityMatchResult` restricted to the fields the calculators read. -/
structure EntityMatchResult where
  entityKey : String
  didWin : Bool
  didLose : Bool
  hasHumiliation : Bool
  hasSuckerPunch : Bool
deriving DecidableEq

/-- The per-participant entity result built inside
`StatsService.generateStats` (and, identically, inside the backfill job):
winners/losers from `toto`, and the match-level humiliation / sucker-punch
flags copied to every participant. -/
def mkEntityMatchResult (m : MatchResult) (playerId : String) : EntityMatchResult :=
  let winners := if m.toto = 1 then m.homeTeamIds
    else if m.toto = 2 then m.awayTeamIds else []
  let losers := if m.toto = 1 then m.awayTeamIds
    else if m.toto = 2 then m.homeTeamIds else []
  { entityKey := playerId
    didWin := winners.contains playerId
    didLose := losers.contains playerId
    hasHumiliation := checkFlawlessVictory m.finalScore
    hasSuckerPunch := checkSuckerPunch m.finalScore }

/-- One field of the `IMetrics` update object: either
`FieldValue.increment n` or a plain overwrite. -/
inductive NumUpdate where
  | inc (n : Int)
  | setVal (n : Int)
deriving DecidableEq

/-- The `IMetrics` object assembled by `StatsService.calculateMetrics`:
fields left `none` are absent from the merge. -/
structure Metrics where
  totalMatches : Option NumUpdate := none
  totalWins : Option NumUpdate := none
  totalLosses : Option NumUpdate := none
  totalGoalsFor : Option NumUpdate := none
  totalGoalsAgainst : Option NumUpdate := none
  totalFlawlessVictories : Option NumUpdate := none
  totalHumiliations : Option NumUpdate := none
  totalSuckerpunches : Option NumUpdate := none
  totalKnockouts : Option NumUpdate := none
  winStreak : Option NumUpdate := none
  loseStreak : Option NumUpdate := none
  dateLastMatch : Option Timestamp := none
  dateLastWin : Option Timestamp := none
  dateLastLose : Option Timestamp := none
  dateLastFlawlessVictory : Option Timestamp := none
  dateLastHumiliation : Option Timestamp := none
deriving DecidableEq

/-- `StatsService.calculateMetrics`: the lifetime-stats merge payload for
one participant. `now` models the `new Date().toISOString()` taken inside
the function. -/
def calculateMetrics (entityResult : EntityMatchResult) (matchResult : MatchResult)
    (multiplier : Int) (now : Timestamp) : Metrics :=
  let playerTeamIndex : Int :=
    if matchResult.homeTeamIds.contains entityResult.entityKey then 0 else 1
  let goalsFor :=
    if playerTeamIndex = 0 then matchResult.finalScore.1 else matchResult.finalScore.2
  let goalsAgainst :=
    if playerTeamIndex = 0 then matchResult.finalScore.2 else matchResult.finalScore.1
  let base : Metrics :=
    { totalMatches := some (.inc (multiplier * 1))
      totalGoalsFor := some (.inc (goalsFor * multiplier))
      totalGoalsAgainst := some (.inc (goalsAgainst * multiplier))
      dateLastMatch := some now }
  if entityResult.didWin then
    { base with
      totalWins := some (.inc (multiplier * 1))
      dateLastWin := some now
      winStreak := some (.inc (multiplier * 1))
      loseStreak := some (.setVal 0)
      totalFlawlessVictories :=
        if entityResult.hasHumiliation then some (.inc (multiplier * 1)) else none
      dateLastFlawlessVictory :=
        if entityResult.hasHumiliation then some now else none
      totalSuckerpunches :=
        if entityResult.hasSuckerPunch then some (.inc (multiplier * 1)) else none }
  else if entityResult.didLose then
    { base with
      totalLosses := some (.inc (multiplier * 1))
      dateLastLose := some now
      loseStreak := some (.inc (multiplier * 1))
      winStreak := some (.setVal 0)
      totalHumiliations :=
        if entityResult.hasHumiliation then some (.inc (multiplier * 1)) else none
      dateLastHumiliation :=
        if entityResult.hasHumiliation then some now else none
      totalKnockouts :=
        if entityResult.hasSuckerPunch then some (.inc (multiplier * 1)) else none }
  else
    { base with
      winStreak := some (.setVal 0)
      loseStreak := some (.setVal 0) }

/-- The player lifetime-stats document (numeric view: an absent counter
reads as 0, matching `FieldValue.increment` and the `|| 0` defaults). -/
structure LifetimeDoc where
  totalMatches : Int := 0
  totalWins : Int := 0
  totalLosses : Int := 0
  totalGoalsFor : Int := 0
  totalGoalsAgainst : Int := 0
  totalFlawlessVictories : Int := 0
  totalHumiliations : Int := 0
  totalSuckerpunches : Int := 0
  totalKnockouts : Int := 0
  winStreak : Int := 0
  loseStreak : Int := 0
  highestWinStreak : Int := 0
  highestLoseStreak : Int := 0
  dateLastMatch : Option Timestamp := none
  dateLastWin : Option Timestamp := none
  dateLastLose : Option Timestamp := none
  dateLastFlawlessVictory : Option Timestamp := none
  dateLastHumiliation : Option Timestamp := none
  modificationDate : Option Timestamp := none
deriving DecidableEq

/-- Firestore merge of one `IMetrics` field into a numeric document field:
`FieldValue.increment` adds, a plain value overwrites, an absent field
leaves the stored value alone. -/
def applyNum (cur : Int) : Option NumUpdate → Int
  | none => cur
  | some (.inc n) => cur + n
  | some (.setVal v) => v

/-- Firestore merge of an optional timestamp field. -/
def mergeDate (old upd : Option Timestamp) : Option Timestamp :=
  match upd with
  | some t => some t
  | none => old

/-- `transaction.set(playerRef, {...metrics, modificationDate}, {merge:true})`:
the lifetime document after merging one `calculateMetrics` payload. -/
def applyMetrics (d : LifetimeDoc) (m : Metrics) (now : Timestamp) : LifetimeDoc :=
  { d with
    totalMatches := applyNum d.totalMatches m.totalMatches
    totalWins := applyNum d.totalWins m.totalWins
    totalLosses := applyNum d.totalLosses m.totalLosses
    totalGoalsFor := applyNum d.totalGoalsFor m.totalGoalsFor
    totalGoalsAgainst := applyNum d.totalGoalsAgainst m.totalGoalsAgainst
    totalFlawlessVictories := applyNum d.totalFlawlessVictories m.totalFlawlessVictories
    totalHumiliations := applyNum d.totalHumiliations m.totalHumiliations
    totalSuckerpunches := applyNum d.totalSuckerpunches m.totalSuckerpunches
    totalKnockouts := applyNum d.totalKnockouts m.totalKnockouts
    winStreak := applyNum d.winStreak m.winStreak
    loseStreak := applyNum d.loseStreak m.loseStreak
    dateLastMatch := mergeDate d.dateLastMatch m.dateLastMatch
    dateLastWin := mergeDate d.dateLastWin m.dateLastWin
    dateLastLose := mergeDate d.dateLastLose m.dateLastLose
    dateLastFlawlessVictory := mergeDate d.dateLastFlawlessVictory m.dateLastFlawlessVictory
    dateLastHumiliation := mergeDate d.dateLastHumiliation m.dateLastHumiliation
    modificationDate := some now }

/-- `ITimeBasedPlayerStatsIncrements`. -/
structure TimeIncrements where
  matchesPlayed : Int := 0
  wins : Int := 0
  losses : Int := 0
  goalsFor : Int := 0
  goalsAgainst : Int := 0
  humiliationsInflicted : Int := 0
  humiliationsSuffered : Int := 0
  suckerPunchesDealt : Int := 0
  suckerPunchesReceived : Int := 0
deriving DecidableEq

/-- `StatsService.calculateTimeBasedIncrements` (the backfill job carries a
verbatim copy of this function, calling it with the default multiplier 1). -/
def calculateTimeBasedIncrements (entityResult : EntityMatchResult)
    (matchResult : MatchResult) (multiplier : Int) : TimeIncrements :=
  let playerTeamIndex : Int :=
    if matchResult.homeTeamIds.contains entityResult.entityKey then 0 else 1
  let scoreFor :=
    if playerTeamIndex = 0 then matchResult.finalScore.1 else matchResult.finalScore.2
  let scoreAgainst :=
    if playerTeamIndex = 0 then matchResult.finalScore.2 else matchResult.finalScore.1
  { matchesPlayed := 1 * multiplier
    goalsFor := scoreFor * multiplier
    goalsAgainst := scoreAgainst * multiplier
    wins := if entityResult.didWin then 1 * multiplier else 0
    humiliationsInflicted :=
      if entityResult.didWin && entityResult.hasHumiliation then 1 * multiplier else 0
    suckerPunchesDealt :=
      if entityResult.didWin && entityResult.hasSuckerPunch then 1 * multiplier else 0
    losses := if !entityResult.didWin && entityResult.didLose then 1 * multiplier else 0
    humiliationsSuffered :=
      if !entityResult.didWin && entityResult.didLose && entityResult.hasHumiliation
      then 1 * multiplier else 0
    suckerPunchesReceived :=
      if !entityResult.didWin && entityResult.didLose && entityResult.hasSuckerPunch
      then 1 * multiplier else 0 }

/-- `ITimeBasedPlayerStats`: one daily or weekly bucket document. -/
structure BucketDoc where
  playerId : String
  timeframeId : String
  periodType : PeriodType
  matchesPlayed : Int
  wins : Int
  losses : Int
  goalsFor : Int
  goalsAgainst : Int
  humiliationsInflicted : Int
  humiliationsSuffered : Int
  suckerPunchesDealt : Int
  suckerPunchesReceived : Int
  firstActivityAt : Timestamp
  lastUpdatedAt : Timestamp
deriving DecidableEq

/-- `StatsService.updateTimeBasedStatsDoc`: merge the increments into the
snapshot read during the read phase, or create a fresh bucket stamped with
`firstActivityAt` when the snapshot was absent. -/
def updateTimeBasedStatsDoc (statsDocSnapshot : Option BucketDoc)
    (playerId timeframeId : String) (periodType : PeriodType)
    (increments : TimeIncrements) (timestamp : Timestamp) : BucketDoc :=
  match statsDocSnapshot with
  | some existingStats =>
    { existingStats with
      matchesPlayed := existingStats.matchesPlayed + increments.matchesPlayed
      wins := existingStats.wins + increments.wins
      losses := existingStats.losses + increments.losses
      goalsFor := existingStats.goalsFor + increments.goalsFor
      goalsAgainst := existingStats.goalsAgainst + increments.goalsAgainst
      humiliationsInflicted :=
        existingStats.humiliationsInflicted + increments.humiliationsInflicted
      humiliationsSuffered :=
        existingStats.humiliationsSuffered + increments.humiliationsSuffered
      suckerPunchesDealt :=
        existingStats.suckerPunchesDealt + increments.suckerPunchesDealt
      suckerPunchesReceived :=
        existingStats.suckerPunchesReceived + increments.suckerPunchesReceived
      lastUpdatedAt := timestamp }
  | none =>
    { playerId := playerId
      timeframeId := timeframeId
      periodType := periodType
      matchesPlayed := increments.matchesPlayed
      wins := increments.wins
      losses := increments.losses
      goalsFor := increments.goalsFor
      goalsAgainst := increments.goalsAgainst
      humiliationsInflicted := increments.humiliationsInflicted
      humiliationsSuffered := increments.humiliationsSuffered
      suckerPunchesDealt := increments.suckerPunchesDealt
      suckerPunchesReceived := increments.suckerPunchesReceived
      firstActivityAt := timestamp
      lastUpdatedAt := timestamp }

/-- The three documents `generateStats` touches for one participant of one
event: the lifetime document and the event's daily and weekly buckets. -/
structure PlayerDocs where
  lifetime : LifetimeDoc
  daily : Option BucketDoc
  weekly : Option BucketDoc
deriving DecidableEq

/-- The per-event view of the store: each participant's touched documents. -/
abbrev StatsStore := String → PlayerDocs

/-- `opts.multiplier || 1`: a missing or zero (falsy) multiplier defaults
to 1. -/
def orOneMultiplier : Option Int → Int
  | none => 1
  | some k => if k = 0 then 1 else k

/-- The write-phase body of `generateStats` for one participant: merge the
lifetime metrics (plus `modificationDate`), then write the daily and weekly
buckets against the snapshots gathered in the read phase. -/
def processPlayer (m : MatchResult) (multiplier : Int) (now : Timestamp)
    (periodIds : String × String) (playerId : String) (docs : PlayerDocs) : PlayerDocs :=
  let entityMatchResult := mkEntityMatchResult m playerId
  let playerStatsIncrements := calculateMetrics entityMatchResult m multiplier now
  let timeBasedIncrements := calculateTimeBasedIncrements entityMatchResult m multiplier
  { lifetime := applyMetrics docs.lifetime playerStatsIncrements now
    daily := some (updateTimeBasedStatsDoc docs.daily playerId periodIds.1 .daily
      timeBasedIncrements now)
    weekly := some (updateTimeBasedStatsDoc docs.weekly playerId periodIds.2 .weekly
      timeBasedIncrements now) }

/-- `StatsService.generateStats`: read phase then write phase over every
participant, transactionally (modelled as a sequential store transformer;
the transaction's `getAll` snapshots are exactly the pre-state the write
phase consumes). -/
def generateStats (m : MatchResult) (opts : Option Int) (now : Timestamp)
    (store : StatsStore) : StatsStore :=
  let multiplier := orOneMultiplier opts
  let periodIds := getTimePeriodIds (m.matchDate.getD now)
  (m.homeTeamIds ++ m.awayTeamIds).foldl
    (fun st playerId =>
      Function.update st playerId (processPlayer m multiplier now periodIds playerId (st playerId)))
    store

/-- The per-player body of `StatsService.batchUpdateStreaks`: promote the
current streaks into the stored maxima when they exceed them. -/
def promoteMaxima (d : LifetimeDoc) : LifetimeDoc :=
  let currentWinStreak := d.winStreak
  let highestWinStreak := d.highestWinStreak
  let currentLoseStreak := d.loseStreak
  let highestLoseStreak := d.highestLoseStreak
  { d with
    highestWinStreak :=
      if currentWinStreak > highestWinStreak then currentWinStreak else highestWinStreak
    highestLoseStreak :=
      if currentLoseStreak > highestLoseStreak then currentLoseStreak else highestLoseStreak }

/-- `Partial<ITimeBasedPlayerStats>` as accumulated in memory by the
backfill job: every field may still be absent. -/
structure PartialStats where
  matchesPlayed : Option Int := none
  wins : Option Int := none
  losses : Option Int := none
  goalsFor : Option Int := none
  goalsAgainst : Option Int := none
  humiliationsInflicted : Option Int := none
  humiliationsSuffered : Option Int := none
  suckerPunchesDealt : Option Int := none
  suckerPunchesReceived : Option Int := none
  firstActivityAt : Option Timestamp := none
  lastUpdatedAt : Option Timestamp := none
deriving DecidableEq

/-- `aggregateIncrements` from `backfill-goals-stats.trigger.ts`: fold one
match's increments into the in-memory accumulator (`|| 0` on every counter,
earliest timestamp into `firstActivityAt`, latest into `lastUpdatedAt`;
`matchTimestamp > (existing.lastUpdatedAt || '')` is the JS string
comparison, which on ISO strings is the numeric order of this model). -/
def aggregateIncrements (existing : PartialStats) (increments : TimeIncrements)
    (matchTimestamp : Timestamp) : PartialStats :=
  let firstActivity :=
    match existing.firstActivityAt with
    | some f => if f < matchTimestamp then f else matchTimestamp
    | none => matchTimestamp
  { matchesPlayed := some (existing.matchesPlayed.getD 0 + increments.matchesPlayed)
    wins := some (existing.wins.getD 0 + increments.wins)
    losses := some (existing.losses.getD 0 + increments.losses)
    goalsFor := some (existing.goalsFor.getD 0 + increments.goalsFor)
    goalsAgainst := some (existing.goalsAgainst.getD 0 + increments.goalsAgainst)
    humiliationsInflicted :=
      some (existing.humiliationsInflicted.getD 0 + increments.humiliationsInflicted)
    humiliationsSuffered :=
      some (existing.humiliationsSuffered.getD 0 + increments.humiliationsSuffered)
    suckerPunchesDealt :=
      some (existing.suckerPunchesDealt.getD 0 + increments.suckerPunchesDealt)
    suckerPunchesReceived :=
      some (existing.suckerPunchesReceived.getD 0 + increments.suckerPunchesReceived)
    firstActivityAt := some firstActivity
    lastUpdatedAt := some
      (match existing.lastUpdatedAt with
       | some l => if matchTimestamp > l then matchTimestamp else l
       | none => matchTimestamp) }

/-- One of the backfill job's in-memory aggregate maps, keyed
`[timeframeId][playerId]`. -/
abbrev Aggregates := String × String → Option PartialStats

/-- The per-match body of the backfill aggregation loop: a match with a
missing `matchDate` is skipped; otherwise every participant's increments
(multiplier 1) are folded into the daily and weekly maps under the match's
period ids. -/
def backfillProcessMatch (aggs : Aggregates × Aggregates) (m : MatchResult) :
    Aggregates × Aggregates :=
  match m.matchDate with
  | none => aggs
  | some matchTimestamp =>
    let timePeriodIds := getTimePeriodIds matchTimestamp
    (m.homeTeamIds ++ m.awayTeamIds).foldl
      (fun (p : Aggregates × Aggregates) playerId =>
        let entityMatchResult := mkEntityMatchResult m playerId
        let increments := calculateTimeBasedIncrements entityMatchResult m 1
        (Function.update p.1 (timePeriodIds.1, playerId)
          (some (aggregateIncrements ((p.1 (timePeriodIds.1, playerId)).getD {})
            increments matchTimestamp)),
         Function.update p.2 (timePeriodIds.2, playerId)
          (some (aggregateIncrements ((p.2 (timePeriodIds.2, playerId)).getD {})
            increments matchTimestamp))))
      aggs

/-- The whole aggregation phase of `backfillTimeStats`: fold the in-range
match log (in `matchDate` order) into the daily and weekly maps, starting
from empty maps. The store is never read here. -/
def aggregateAll (matchLog : List MatchResult) : Aggregates × Aggregates :=
  matchLog.foldl backfillProcessMatch (fun _ => none, fun _ => none)

/-- The document `writeAggregatesToFirestore` builds for one aggregate
entry (`|| 0` and `|| nowISOforFallback` defaults) and writes with a plain
`batch.set` — a direct overwrite. -/
def writeAggregateDoc (playerId timeframeId : String) (periodType : PeriodType)
    (statsData : PartialStats) (nowISOforFallback : Timestamp) : BucketDoc :=
  { playerId := playerId
    timeframeId := timeframeId
    periodType := periodType
    matchesPlayed := statsData.matchesPlayed.getD 0
    wins := statsData.wins.getD 0
    losses := statsData.losses.getD 0
    goalsFor := statsData.goalsFor.getD 0
    goalsAgainst := statsData.goalsAgainst.getD 0
    humiliationsInflicted := statsData.humiliationsInflicted.getD 0
    humiliationsSuffered := statsData.humiliationsSuffered.getD 0
    suckerPunchesDealt := statsData.suckerPunchesDealt.getD 0
    suckerPunchesReceived := statsData.suckerPunchesReceived.getD 0
    firstActivityAt := statsData.firstActivityAt.getD nowISOforFallback
    lastUpdatedAt := statsData.lastUpdatedAt.getD nowISOforFallback }

/-- The bucket-document store, keyed (periodType, timeframeId, playerId). -/
abbrev BucketStore := PeriodType × String × String → Option BucketDoc

/-- `writeAggregatesToFirestore`: overwrite the document of every aggregate
entry of the given period type; every other document is untouched. -/
def writeAggregatesToFirestore (store : BucketStore) (aggregates : Aggregates)
    (periodType : PeriodType) (now : Timestamp) : BucketStore :=
  fun k =>
    if k.1 = periodType then
      match aggregates (k.2.1, k.2.2) with
      | some statsData => some (writeAggregateDoc k.2.2 k.2.1 periodType statsData now)
      | none => store k
    else store k

/-- The `backfillTimeStats` trigger over an already-fetched in-range match
log: aggregate everything in memory, then write the daily and the weekly
aggregates. -/
def backfillTimeStats (matchLog : List MatchResult) (now : Timestamp)
    (store : BucketStore) : BucketStore :=
  let aggs := aggregateAll matchLog
  writeAggregatesToFirestore
    (writeAggregatesToFirestore store aggs.1 .daily now) aggs.2 .weekly now

/-- The nine lifetime counter fields of the claims ("streak fields
excepted"). -/
def lifetimeCounters (d : LifetimeDoc) : List Int :=
  [d.totalMatches, d.totalWins, d.totalLosses, d.totalGoalsFor, d.totalGoalsAgainst,
   d.totalFlawlessVictories, d.totalHumiliations, d.totalSuckerpunches, d.totalKnockouts]

/-- The nine counter fields of a bucket document, with an absent document
reading as all zeros (the spec: reversal may drive counters "down to zero,
but the document itself persists"). -/
def bucketCounters : Option BucketDoc → List Int
  | none => [0, 0, 0, 0, 0, 0, 0, 0, 0]
  | some b =>
    [b.matchesPlayed, b.wins, b.losses, b.goalsFor, b.goalsAgainst,
     b.humiliationsInflicted, b.humiliationsSuffered, b.suckerPunchesDealt,
     b.suckerPunchesReceived]

lemma foldl_update_not_mem {α β : Type} [DecidableEq α] (f : α → β → β)
    (l : List α) (store : α → β) (x : α) (hx : x ∉ l) :
    (l.foldl (fun st y => Function.update st y (f y (st y))) store) x = store x := by
  induction l generalizing store with
  | nil => rfl
  | cons a t ih =>
    have hxa : x ≠ a := fun h => hx (h ▸ List.mem_cons_self a t)
    have hxt : x ∉ t := fun h => hx (List.mem_cons_of_mem a h)
    simp only [List.foldl_cons]
    rw [ih _ hxt, Function.update_noteq hxa]

lemma foldl_update_mem {α β : Type} [DecidableEq α] (f : α → β → β)
    (l : List α) (store : α → β) (x : α) (hnd : l.Nodup) (hx : x ∈ l) :
    (l.foldl (fun st y => Function.update st y (f y (st y))) store) x = f x (store x) := by
  induction l generalizing store with
  | nil => cases hx
  | cons a t ih =>
    simp only [List.foldl_cons]
    rcases List.mem_cons.mp hx with h | h
    · subst h
      have hxt : x ∉ t := (List.nodup_cons.mp hnd).1
      rw [foldl_update_not_mem _ _ _ _ hxt, Function.update_same]
    · have hxa : x ≠ a := by
        rintro rfl
        exact (List.nodup_cons.mp hnd).1 h
      rw [ih _ (List.nodup_cons.mp hnd).2 h, Function.update_noteq hxa]

lemma metrics_roundtrip (e : EntityMatchResult) (m : MatchResult)
    (n1 n2 : Timestamp) (d : LifetimeDoc) :
    lifetimeCounters
      (applyMetrics (applyMetrics d (calculateMetrics e m 1 n1) n1)
        (calculateMetrics e m (-1) n2) n2) = lifetimeCounters d := by
  cases hw : e.didWin <;> cases hl : e.didLose <;> cases hh : e.hasHumiliation <;>
    cases hs : e.hasSuckerPunch <;>
    cases hc : m.homeTeamIds.contains e.entityKey <;>
    simp [lifetimeCounters, applyMetrics, calculateMetrics, applyNum, hw, hl, hh, hs, hc]

lemma calculateTimeBasedIncrements_neg (e : EntityMatchResult) (m : MatchResult) :
    (calculateTimeBasedIncrements e m (-1)).matchesPlayed =
      -(calculateTimeBasedIncrements e m 1).matchesPlayed ∧
    (calculateTimeBasedIncrements e m (-1)).wins =
      -(calculateTimeBasedIncrements e m 1).wins ∧
    (calculateTimeBasedIncrements e m (-1)).losses =
      -(calculateTimeBasedIncrements e m 1).losses ∧
    (calculateTimeBasedIncrements e m (-1)).goalsFor =
      -(calculateTimeBasedIncrements e m 1).goalsFor ∧
    (calculateTimeBasedIncrements e m (-1)).goalsAgainst =
      -(calculateTimeBasedIncrements e m 1).goalsAgainst ∧
    (calculateTimeBasedIncrements e m (-1)).humiliationsInflicted =
      -(calculateTimeBasedIncrements e m 1).humiliationsInflicted ∧
    (calculateTimeBasedIncrements e m (-1)).humiliationsSuffered =
      -(calculateTimeBasedIncrements e m 1).humiliationsSuffered ∧
    (calculateTimeBasedIncrements e m (-1)).suckerPunchesDealt =
      -(calculateTimeBasedIncrements e m 1).suckerPunchesDealt ∧
    (calculateTimeBasedIncrements e m (-1)).suckerPunchesReceived =
      -(calculateTimeBasedIncrements e m 1).suckerPunchesReceived := by
  cases hw : e.didWin <;> cases hl : e.didLose <;> cases hh : e.hasHumiliation <;>
    cases hs : e.hasSuckerPunch <;>
    simp [calculateTimeBasedIncrements, hw, hl, hh, hs]

lemma bucket_roundtrip_generic (i j : TimeIncrements) (pid tf : String)
    (pt : PeriodType) (n1 n2 : Timestamp) (ob : Option BucketDoc)
    (hmp : j.matchesPlayed = -i.matchesPlayed) (hwi : j.wins = -i.wins)
    (hlo : j.losses = -i.losses) (hgf : j.goalsFor = -i.goalsFor)
    (hga : j.goalsAgainst = -i.goalsAgainst)
    (hhi : j.humiliationsInflicted = -i.humiliationsInflicted)
    (hhs : j.humiliationsSuffered = -i.humiliationsSuffered)
    (hsd : j.suckerPunchesDealt = -i.suckerPunchesDealt)
    (hsr : j.suckerPunchesReceived = -i.suckerPunchesReceived) :
    bucketCounters
      (some (updateTimeBasedStatsDoc
        (some (updateTimeBasedStatsDoc ob pid tf pt i n1)) pid tf pt j n2)) =
      bucketCounters ob := by
  cases ob <;>
    simp [bucketCounters, updateTimeBasedStatsDoc, hmp, hwi, hlo, hgf, hga, hhi, hhs,
      hsd, hsr]

lemma bucket_roundtrip (e : EntityMatchResult) (m : MatchResult)
    (pid tf : String) (pt : PeriodType) (n1 n2 : Timestamp) (ob : Option BucketDoc) :
    bucketCounters
      (some (updateTimeBasedStatsDoc
        (some (updateTimeBasedStatsDoc ob pid tf pt (calculateTimeBasedIncrements e m 1) n1))
        pid tf pt (calculateTimeBasedIncrements e m (-1)) n2)) = bucketCounters ob := by
  obtain ⟨h1, h2, h3, h4, h5, h6, h7, h8, h9⟩ := calculateTimeBasedIncrements_neg e m
  exact bucket_roundtrip_generic _ _ pid tf pt n1 n2 ob h1 h2 h3 h4 h5 h6 h7 h8 h9

lemma processPlayer_roundtrip (m : MatchResult) (ids : String × String)
    (n1 n2 : Timestamp) (pid : String) (docs : PlayerDocs) :
    lifetimeCounters ((processPlayer m (-1) n2 ids pid
        (processPlayer m 1 n1 ids pid docs)).lifetime) =
      lifetimeCounters docs.lifetime ∧
    bucketCounters ((processPlayer m (-1) n2 ids pid
        (processPlayer m 1 n1 ids pid docs)).daily) = bucketCounters docs.daily ∧
    bucketCounters ((processPlayer m (-1) n2 ids pid
        (processPlayer m 1 n1 ids pid docs)).weekly) = bucketCounters docs.weekly := by
  refine ⟨?_, ?_, ?_⟩
  · exact metrics_roundtrip (mkEntityMatchResult m pid) m n1 n2 docs.lifetime
  · exact bucket_roundtrip (mkEntityMatchResult m pid) m pid ids.1 .daily n1 n2 docs.daily
  · exact bucket_roundtrip (mkEntityMatchResult m pid) m pid ids.2 .weekly n1 n2 docs.weekly

/-- C1. For any valid event (a stored match date, no participant listed
twice), running `generateStats` with multiplier +1 and then again with
multiplier −1 leaves, for every player, the nine lifetime counters and the
nine counters of the touched daily and weekly bucket documents numerically
identical to their pre-event values (streak fields excepted; an absent
bucket reads as all-zero counters). -/
theorem generateStats_reversible (m : MatchResult) (t n1 n2 : Timestamp)
    (store : StatsStore) (pid : String)
    (hdate : m.matchDate = some t)
    (hvalid : (m.homeTeamIds ++ m.awayTeamIds).Nodup) :
    lifetimeCounters ((generateStats m (some (-1)) n2
        (generateStats m (some 1) n1 store) pid).lifetime) =
      lifetimeCounters ((store pid).lifetime) ∧
    bucketCounters ((generateStats m (some (-1)) n2
        (generateStats m (some 1) n1 store) pid).daily) =
      bucketCounters ((store pid).daily) ∧
    bucketCounters ((generateStats m (some (-1)) n2
        (generateStats m (some 1) n1 store) pid).weekly) =
      bucketCounters ((store pid).weekly) := by
  have hm1 : orOneMultiplier (some 1) = 1 := rfl
  have hm2 : orOneMultiplier (some (-1)) = -1 := rfl
  unfold generateStats
  rw [hdate] at *
  simp only [hm1, hm2, Option.getD_some]
  by_cases hmem : pid ∈ m.homeTeamIds ++ m.awayTeamIds
  · rw [foldl_update_mem _ _ _ _ hvalid hmem, foldl_update_mem _ _ _ _ hvalid hmem]
    exact processPlayer_roundtrip m (getTimePeriodIds t) n1 n2 pid (store pid)
  · rw [foldl_update_not_mem _ _ _ _ hmem, foldl_update_not_mem _ _ _ _ hmem]
    exact ⟨rfl, rfl, rfl⟩

/-- A concrete 1v1 event used to instantiate the hypothesis-bearing
theorems: A beats B 10–3 on the stored match date. -/
def witnessMatch : MatchResult :=
  { homeTeamIds := ["A"], awayTeamIds := ["B"], finalScore := (10, 3), toto := 1,
    matchDate := some 0 }

/-- An initial store in which no player has any document yet. -/
def emptyStore : StatsStore :=
  fun _ => { lifetime := {}, daily := none, weekly := none }

/-- Witness for C1: the round trip evaluated on the concrete event
`witnessMatch` over the empty store. -/
theorem generateStats_reversible_witness :
    lifetimeCounters ((generateStats witnessMatch (some (-1)) 9
        (generateStats witnessMatch (some 1) 5 emptyStore) "A").lifetime) =
      lifetimeCounters ((emptyStore "A").lifetime) ∧
    bucketCounters ((generateStats witnessMatch (some (-1)) 9
        (generateStats witnessMatch (some 1) 5 emptyStore) "A").daily) =
      bucketCounters ((emptyStore "A").daily) ∧
    bucketCounters ((generateStats witnessMatch (some (-1)) 9
        (generateStats witnessMatch (some 1) 5 emptyStore) "A").weekly) =
      bucketCounters ((emptyStore "A").weekly) :=
  generateStats_reversible witnessMatch 0 5 9 emptyStore "A" rfl (by decide)

/-- The numeric amount of an `IMetrics` field when it is a
`FieldValue.increment`, and 0 otherwise. -/
def incAmount : Option NumUpdate → Int
  | some (.inc n) => n
  | some (.setVal _) => 0
  | none => 0

/-- C6. Every counter field of the lifetime delta (`calculateMetrics`) and
of the per-period delta (`calculateTimeBasedIncrements`) computed with
multiplier `mult` equals `mult` times the corresponding field of the delta
computed with multiplier +1, for the same event and participant. -/
theorem increments_scale_linearly (e : EntityMatchResult) (m : MatchResult)
    (mult : Int) (now now' : Timestamp) :
    incAmount (calculateMetrics e m mult now).totalMatches =
      mult * incAmount (calculateMetrics e m 1 now').totalMatches ∧
    incAmount (calculateMetrics e m mult now).totalWins =
      mult * incAmount (calculateMetrics e m 1 now').totalWins ∧
    incAmount (calculateMetrics e m mult now).totalLosses =
      mult * incAmount (calculateMetrics e m 1 now').totalLosses ∧
    incAmount (calculateMetrics e m mult now).totalGoalsFor =
      mult * incAmount (calculateMetrics e m 1 now').totalGoalsFor ∧
    incAmount (calculateMetrics e m mult now).totalGoalsAgainst =
      mult * incAmount (calculateMetrics e m 1 now').totalGoalsAgainst ∧
    incAmount (calculateMetrics e m mult now).totalFlawlessVictories =
      mult * incAmount (calculateMetrics e m 1 now').totalFlawlessVictories ∧
    incAmount (calculateMetrics e m mult now).totalHumiliations =
      mult * incAmount (calculateMetrics e m 1 now').totalHumiliations ∧
    incAmount (calculateMetrics e m mult now).totalSuckerpunches =
      mult * incAmount (calculateMetrics e m 1 now').totalSuckerpunches ∧
    incAmount (calculateMetrics e m mult now).totalKnockouts =
      mult * incAmount (calculateMetrics e m 1 now').totalKnockouts ∧
    (calculateTimeBasedIncrements e m mult).matchesPlayed =
      mult * (calculateTimeBasedIncrements e m 1).matchesPlayed ∧
    (calculateTimeBasedIncrements e m mult).wins =
      mult * (calculateTimeBasedIncrements e m 1).wins ∧
    (calculateTimeBasedIncrements e m mult).losses =
      mult * (calculateTimeBasedIncrements e m 1).losses ∧
    (calculateTimeBasedIncrements e m mult).goalsFor =
      mult * (calculateTimeBasedIncrements e m 1).goalsFor ∧
    (calculateTimeBasedIncrements e m mult).goalsAgainst =
      mult * (calculateTimeBasedIncrements e m 1).goalsAgainst ∧
    (calculateTimeBasedIncrements e m mult).humiliationsInflicted =
      mult * (calculateTimeBasedIncrements e m 1).humiliationsInflicted ∧
    (calculateTimeBasedIncrements e m mult).humiliationsSuffered =
      mult * (calculateTimeBasedIncrements e m 1).humiliationsSuffered ∧
    (calculateTimeBasedIncrements e m mult).suckerPunchesDealt =
      mult * (calculateTimeBasedIncrements e m 1).suckerPunchesDealt ∧
    (calculateTimeBasedIncrements e m mult).suckerPunchesReceived =
      mult * (calculateTimeBasedIncrements e m 1).suckerPunchesReceived := by
  cases hw : e.didWin <;> cases hl : e.didLose <;> cases hh : e.hasHumiliation <;>
    cases hs : e.hasSuckerPunch <;>
    cases hc : m.homeTeamIds.contains e.entityKey <;>
    simp [calculateMetrics, calculateTimeBasedIncrements, incAmount, hw, hl, hh, hs, hc,
      mul_comm]

/-- One lifetime-stats update as issued by the Aggregation Engine: the
participant's entity result, the match, the multiplier and the write
timestamp. -/
structure LifetimeUpdate where
  entity : EntityMatchResult
  matchResult : MatchResult
  multiplier : Int
  now : Timestamp

/-- The lifetime-document effect of one `generateStats` participant
iteration. -/
def applyLifetimeUpdate (d : LifetimeDoc) (u : LifetimeUpdate) : LifetimeDoc :=
  applyMetrics d (calculateMetrics u.entity u.matchResult u.multiplier u.now) u.now

/-- The streak-exclusivity invariant of the spec. -/
def streakInvariant (d : LifetimeDoc) : Prop :=
  (0 < d.winStreak → d.loseStreak = 0) ∧ (0 < d.loseStreak → d.winStreak = 0)

lemma applyLifetimeUpdate_invariant (d : LifetimeDoc) (u : LifetimeUpdate) :
    streakInvariant (applyLifetimeUpdate d u) := by
  cases hw : u.entity.didWin <;> cases hl : u.entity.didLose <;>
    simp [streakInvariant, applyLifetimeUpdate, applyMetrics, calculateMetrics,
      applyNum, hw, hl]

/-- C7. Starting from a state satisfying the streak-exclusivity invariant,
any sequence of Aggregation Engine lifetime updates (any events, any
multipliers) preserves `winStreak > 0 → loseStreak = 0` and
`loseStreak > 0 → winStreak = 0`; and an update with no decided outcome
sets both streaks to 0. -/
theorem streak_exclusivity_invariant (d : LifetimeDoc) (updates : List LifetimeUpdate)
    (h : streakInvariant d) :
    streakInvariant (updates.foldl applyLifetimeUpdate d) ∧
    ∀ (u : LifetimeUpdate) (d' : LifetimeDoc),
      u.entity.didWin = false → u.entity.didLose = false →
      (applyLifetimeUpdate d' u).winStreak = 0 ∧
      (applyLifetimeUpdate d' u).loseStreak = 0 := by
  constructor
  · induction updates generalizing d with
    | nil => exact h
    | cons u us ih => exact ih _ (applyLifetimeUpdate_invariant d u)
  · intro u d' hw hl
    simp [applyLifetimeUpdate, applyMetrics, calculateMetrics, applyNum, hw, hl]

/-- Witness for C7: the invariant instantiated at the fresh (all-zero)
lifetime document and the empty update sequence. -/
theorem streak_exclusivity_invariant_witness :
    streakInvariant (([] : List LifetimeUpdate).foldl applyLifetimeUpdate {}) ∧
    ∀ (u : LifetimeUpdate) (d' : LifetimeDoc),
      u.entity.didWin = false → u.entity.didLose = false →
      (applyLifetimeUpdate d' u).winStreak = 0 ∧
      (applyLifetimeUpdate d' u).loseStreak = 0 :=
  streak_exclusivity_invariant {} []
    (by constructor <;> (intro hpos; exact absurd hpos (by decide)))

/-- C9. `promoteMaxima` is a monotonic ratchet: over any number of calls
the stored maxima never decrease; one call raises a maximum to the current
streak exactly when the current streak exceeds it; and repeating the call
leaves the document unchanged. -/
theorem streak_maxima_ratchet (d : LifetimeDoc) (n : Nat) :
    d.highestWinStreak ≤ (promoteMaxima^[n] d).highestWinStreak ∧
    d.highestLoseStreak ≤ (promoteMaxima^[n] d).highestLoseStreak ∧
    ((promoteMaxima d).highestWinStreak =
      if d.winStreak > d.highestWinStreak then d.winStreak else d.highestWinStreak) ∧
    ((promoteMaxima d).highestLoseStreak =
      if d.loseStreak > d.highestLoseStreak then d.loseStreak else d.highestLoseStreak) ∧
    promoteMaxima (promoteMaxima d) = promoteMaxima d := by
  have mono : ∀ e : LifetimeDoc,
      e.highestWinStreak ≤ (promoteMaxima e).highestWinStreak ∧
      e.highestLoseStreak ≤ (promoteMaxima e).highestLoseStreak := by
    intro e
    constructor <;> (simp only [promoteMaxima]; split <;> omega)
  refine ⟨?_, ?_, rfl, rfl, ?_⟩
  · induction n generalizing d with
    | zero => simp
    | succ k ih =>
      rw [Function.iterate_succ_apply]
      exact le_trans (mono d).1 (ih (promoteMaxima d))
  · induction n generalizing d with
    | zero => simp
    | succ k ih =>
      rw [Function.iterate_succ_apply]
      exact le_trans (mono d).2 (ih (promoteMaxima d))
  · simp only [promoteMaxima]
    split_ifs <;> simp_all

/-- C10. Merging increments into an existing bucket document adds each
increment to the stored counter and refreshes `lastUpdatedAt`, while
`firstActivityAt`, `playerId`, `timeframeId` and `periodType` are left
unchanged; `firstActivityAt` is stamped only when the document is first
created. -/
theorem bucket_update_frame (ex : BucketDoc) (pid tf : String) (pt : PeriodType)
    (inc : TimeIncrements) (ts : Timestamp) :
    (updateTimeBasedStatsDoc (some ex) pid tf pt inc ts).firstActivityAt =
      ex.firstActivityAt ∧
    (updateTimeBasedStatsDoc (some ex) pid tf pt inc ts).playerId = ex.playerId ∧
    (updateTimeBasedStatsDoc (some ex) pid tf pt inc ts).timeframeId = ex.timeframeId ∧
    (updateTimeBasedStatsDoc (some ex) pid tf pt inc ts).periodType = ex.periodType ∧
    (updateTimeBasedStatsDoc (some ex) pid tf pt inc ts).lastUpdatedAt = ts ∧
    (updateTimeBasedStatsDoc (some ex) pid tf pt inc ts).matchesPlayed =
      ex.matchesPlayed + inc.matchesPlayed ∧
    (updateTimeBasedStatsDoc (some ex) pid tf pt inc ts).wins = ex.wins + inc.wins ∧
    (updateTimeBasedStatsDoc (some ex) pid tf pt inc ts).losses = ex.losses + inc.losses ∧
    (updateTimeBasedStatsDoc (some ex) pid tf pt inc ts).goalsFor =
      ex.goalsFor + inc.goalsFor ∧
    (updateTimeBasedStatsDoc (some ex) pid tf pt inc ts).goalsAgainst =
      ex.goalsAgainst + inc.goalsAgainst ∧
    (updateTimeBasedStatsDoc (some ex) pid tf pt inc ts).humiliationsInflicted =
      ex.humiliationsInflicted + inc.humiliationsInflicted ∧
    (updateTimeBasedStatsDoc (some ex) pid tf pt inc ts).humiliationsSuffered =
      ex.humiliationsSuffered + inc.humiliationsSuffered ∧
    (updateTimeBasedStatsDoc (some ex) pid tf pt inc ts).suckerPunchesDealt =
      ex.suckerPunchesDealt + inc.suckerPunchesDealt ∧
    (updateTimeBasedStatsDoc (some ex) pid tf pt inc ts).suckerPunchesReceived =
      ex.suckerPunchesReceived + inc.suckerPunchesReceived ∧
    (updateTimeBasedStatsDoc none pid tf pt inc ts).firstActivityAt = ts ∧
    (updateTimeBasedStatsDoc none pid tf pt inc ts).lastUpdatedAt = ts :=
  ⟨rfl, rfl, rfl, rfl, rfl, rfl, rfl, rfl, rfl, rfl, rfl, rfl, rfl, rfl, rfl, rfl⟩

/-- C2 counterexample. The claim says the validator rejects `[11,10]`; the
code accepts it: no branch of the score-legality chain matches (`11-11`?
no; `11` with opponent `>10`? no; `10` with opponent `≥10`? the leader is
11), so the pair falls through and the input is accepted without warning. -/
theorem validator_accepts_eleven_ten :
    validateAddMatchResultInput (fun _ => true) ["A"] ["B"] ((11 : Int), (10 : Int)) none =
      .ok false := rfl

/-- C2 amended. Classification of every score pair in {0..11}×{0..11} by
the validator (teams fixed to the valid 1v1 pair A vs B): `10-10` and
`11-11` are rejected; pairs where neither side reaches 10 are accepted
with a non-fatal warning unless both are exactly 0; every other pair —
including `11-10` and every `10-x` (x<10) and `11-x` (x≤10) — is accepted
without warning. -/
theorem validator_totality_amended (parses : String → Bool) (a b : Int)
    (ha0 : 0 ≤ a) (ha1 : a ≤ 11) (hb0 : 0 ≤ b) (hb1 : b ≤ 11) :
    validateAddMatchResultInput parses ["A"] ["B"] (a, b) none =
      (if a = 10 ∧ b = 10 then .error .tieAt10
       else if a = 11 ∧ b = 11 then .error .tieAt11
       else if max a b < 10 then .ok (!(a = 0 && b = 0))
       else .ok false) := by
  interval_cases a <;> interval_cases b <;> rfl

/-- Witness for the amended C2: the sucker-punch pair `[11,10]` is in the
accepted region. -/
theorem validator_totality_amended_witness :
    validateAddMatchResultInput (fun _ => false) ["A"] ["B"] ((11 : Int), (10 : Int)) none =
      (if (11 : Int) = 10 ∧ (10 : Int) = 10 then .error .tieAt10
       else if (11 : Int) = 11 ∧ (10 : Int) = 11 then .error .tieAt11
       else if max (11 : Int) 10 < 10 then .ok (!((11 : Int) = 0 && (10 : Int) = 0))
       else .ok false) :=
  validator_totality_amended (fun _ => false) 11 10 (by decide) (by decide) (by decide)
    (by decide)

/-- C5 counterexample. For an input violating both the duplicate-player
rule and score legality (`home=[A]`, `away=[A]`, score `[10,10]`), the
rejection the code reports is the 10-10 tie, not the duplicate player:
the score checks run first in `validateAddMatchResultInput`. -/
theorem duplicate_and_tie_reports_tie :
    validateAddMatchResultInput (fun _ => true) ["A"] ["A"] ((10 : Int), (10 : Int)) none =
      .error .tieAt10 ∧
    RejectionReason.tieAt10 ≠ RejectionReason.duplicatePlayer :=
  ⟨rfl, by decide⟩

/-- C5 amended. The validator checks score legality before the
duplicate-player rule: for any team lists of valid shape — duplicated
players or not — and any match date, the score `[10,10]` is rejected as
the 10-10 tie. -/
theorem score_rules_before_duplicate_rule (parses : String → Bool)
    (home away : List String) (md : Option String)
    (h1 : home ≠ []) (h2 : away ≠ []) (h3 : home.length = away.length)
    (h4 : home.length ≤ 2) :
    validateAddMatchResultInput parses home away ((10 : Int), (10 : Int)) md =
      .error .tieAt10 := by
  have h5 : 0 < home.length := List.length_pos.mpr h1
  simp only [validateAddMatchResultInput]
  rw [if_neg h1, if_neg h2,
    if_neg (by omega : ¬(home.length ≠ away.length ∨ home.length > 2 ∨ home.length < 1))]
  rfl

/-- Witness for the amended C5: the duplicated 1v1 input of the claim. -/
theorem score_rules_before_duplicate_rule_witness :
    validateAddMatchResultInput (fun _ => true) ["A"] ["A"] ((10 : Int), (10 : Int)) none =
      .error .tieAt10 :=
  score_rules_before_duplicate_rule (fun _ => true) ["A"] ["A"] none (by decide)
    (by decide) rfl (by decide)

/-- C3. The weekly id takes its year from the timestamp's own UTC calendar
year, not from the ISO year of the week's Thursday: 2024-12-30T12:00:00Z
(day 20087, a Monday of ISO week 2025-W01) gets the id `2024-W01` — the
same id the code gives 2024-01-01 (ISO week 2024-W01) — while the ISO-8601
id of the claim is `2025-W01`. -/
theorem weeklyId_uses_calendar_year :
    getTimePeriodIds 1735560000000 = ("2024-12-30", "2024-W01") ∧
    specIsoWeeklyId 1735560000000 = "2025-W01" ∧
    getTimePeriodIds 1704067200000 = ("2024-01-01", "2024-W01") :=
  ⟨rfl, rfl, rfl⟩

/-- The concrete 1v1 match of the C4 scenario with final score `[10,0]`:
A (home) beats B (away). -/
def humiliationMatch : MatchResult :=
  { homeTeamIds := ["A"], awayTeamIds := ["B"], finalScore := (10, 0), toto := 1,
    matchDate := some 0 }

/-- The concrete 1v1 match of the C4 scenario with final score `[11,7]`:
A (home) beats B (away). -/
def suckerPunchMatch : MatchResult :=
  { homeTeamIds := ["A"], awayTeamIds := ["B"], finalScore := (11, 7), toto := 1,
    matchDate := some 0 }

/-- C4 counterexample. For the `[11,7]` match, `generateStats` computes
`hasSuckerPunch` once from the final score and copies it into every
participant's entity result — so the losing participant's computed data
also carries `hasSuckerPunch = true` (and their per-period increments
record `suckerPunchesReceived = 1`), contradicting "the winner only, not
in the loser's". -/
theorem suckerpunch_also_in_losers_increments :
    (mkEntityMatchResult suckerPunchMatch "B").didLose = true ∧
    (mkEntityMatchResult suckerPunchMatch "B").hasSuckerPunch = true ∧
    (calculateTimeBasedIncrements (mkEntityMatchResult suckerPunchMatch "B")
      suckerPunchMatch 1).suckerPunchesReceived = 1 :=
  ⟨rfl, rfl, rfl⟩

/-- C4 amended. `[10,0]` sets `hasHumiliation = true` in both
participants' entity results, giving the winner `humiliationsInflicted = 1`
and the loser `humiliationsSuffered = 1`; `[11,7]` sets
`hasSuckerPunch = true` in both participants' entity results, giving
`suckerPunchesDealt = 1` to the winner only (the loser's
`suckerPunchesDealt` stays 0) and `suckerPunchesReceived = 1` to the
loser. -/
theorem humiliation_and_suckerpunch_scenarios :
    (mkEntityMatchResult humiliationMatch "A").hasHumiliation = true ∧
    (mkEntityMatchResult humiliationMatch "B").hasHumiliation = true ∧
    (calculateTimeBasedIncrements (mkEntityMatchResult humiliationMatch "A")
      humiliationMatch 1).humiliationsInflicted = 1 ∧
    (calculateTimeBasedIncrements (mkEntityMatchResult humiliationMatch "B")
      humiliationMatch 1).humiliationsSuffered = 1 ∧
    (mkEntityMatchResult suckerPunchMatch "A").hasSuckerPunch = true ∧
    (mkEntityMatchResult suckerPunchMatch "B").hasSuckerPunch = true ∧
    (calculateTimeBasedIncrements (mkEntityMatchResult suckerPunchMatch "A")
      suckerPunchMatch 1).suckerPunchesDealt = 1 ∧
    (calculateTimeBasedIncrements (mkEntityMatchResult suckerPunchMatch "B")
      suckerPunchMatch 1).suckerPunchesDealt = 0 ∧
    (calculateTimeBasedIncrements (mkEntityMatchResult suckerPunchMatch "B")
      suckerPunchMatch 1).suckerPunchesReceived = 1 :=
  ⟨rfl, rfl, rfl, rfl, rfl, rfl, rfl, rfl, rfl⟩

/-- Every entry of an aggregate map has its two timestamp fields set (the
accumulator only ever stores `aggregateIncrements` results, which always
set them). -/
def CompleteAggs (a : Aggregates) : Prop :=
  ∀ k s, a k = some s →
    (∃ f, s.firstActivityAt = some f) ∧ (∃ l, s.lastUpdatedAt = some l)

lemma aggregateIncrements_complete (existing : PartialStats) (inc : TimeIncrements)
    (ts : Timestamp) :
    (∃ f, (aggregateIncrements existing inc ts).firstActivityAt = some f) ∧
    (∃ l, (aggregateIncrements existing inc ts).lastUpdatedAt = some l) := by
  simp [aggregateIncrements]

lemma update_complete (a : Aggregates) (key : String × String) (v : PartialStats)
    (ha : CompleteAggs a)
    (hv : (∃ f, v.firstActivityAt = some f) ∧ (∃ l, v.lastUpdatedAt = some l)) :
    CompleteAggs (Function.update a key (some v)) := by
  intro k s hk
  by_cases h : k = key
  · subst h
    rw [Function.update_same] at hk
    cases hk
    exact hv
  · rw [Function.update_noteq h] at hk
    exact ha k s hk

lemma backfillProcessMatch_complete (p : Aggregates × Aggregates) (m : MatchResult)
    (h1 : CompleteAggs p.1) (h2 : CompleteAggs p.2) :
    CompleteAggs (backfillProcessMatch p m).1 ∧
    CompleteAggs (backfillProcessMatch p m).2 := by
  unfold backfillProcessMatch
  cases m.matchDate with
  | none => exact ⟨h1, h2⟩
  | some ts =>
    simp only
    generalize m.homeTeamIds ++ m.awayTeamIds = ids
    induction ids generalizing p with
    | nil => exact ⟨h1, h2⟩
    | cons x xs ih =>
      simp only [List.foldl_cons]
      exact ih _
        (update_complete _ _ _ h1 (aggregateIncrements_complete _ _ _))
        (update_complete _ _ _ h2 (aggregateIncrements_complete _ _ _))

lemma aggregateAll_complete (matchLog : List MatchResult) :
    CompleteAggs (aggregateAll matchLog).1 ∧ CompleteAggs (aggregateAll matchLog).2 := by
  unfold aggregateAll
  have base : CompleteAggs (fun _ => (none : Option PartialStats)) := by
    intro k s h
    cases h
  generalize hinit : ((fun _ => none, fun _ => none) : Aggregates × Aggregates) = init
  have hi1 : CompleteAggs init.1 := by rw [← hinit]; exact base
  have hi2 : CompleteAggs init.2 := by rw [← hinit]; exact base
  clear hinit
  induction matchLog generalizing init with
  | nil => exact ⟨hi1, hi2⟩
  | cons m ms ih =>
    simp only [List.foldl_cons]
    obtain ⟨j1, j2⟩ := backfillProcessMatch_complete init m hi1 hi2
    exact ih _ j1 j2

/-- C8. Running the backfill over the same match log twice — at different
wall-clock times, over whatever store the first run produced — yields
exactly the store of the first run: the written bucket documents are a
pure function of the in-range match log, overwritten directly without
reading the existing documents. -/
theorem backfill_idempotent (matchLog : List MatchResult) (now1 now2 : Timestamp)
    (store : BucketStore) :
    backfillTimeStats matchLog now2 (backfillTimeStats matchLog now1 store) =
      backfillTimeStats matchLog now1 store := by
  obtain ⟨hd, hw⟩ := aggregateAll_complete matchLog
  funext k
  obtain ⟨pt, tf, pid⟩ := k
  simp only [backfillTimeStats, writeAggregatesToFirestore]
  cases pt
  case daily =>
    simp only [reduceCtorEq, if_false, if_true]
    cases h : (aggregateAll matchLog).1 (tf, pid) with
    | none => simp [h]
    | some s =>
      obtain ⟨⟨f, hf⟩, ⟨l, hl⟩⟩ := hd _ _ h
      simp [h, writeAggregateDoc, hf, hl]
  case weekly =>
    simp only [reduceCtorEq, if_false, if_true]
    cases h : (aggregateAll matchLog).2 (tf, pid) with
    | none => simp [h]
    | some s =>
      obtain ⟨⟨f, hf⟩, ⟨l, hl⟩⟩ := hw _ _ h
      simp [h, writeAggregateDoc, hf, hl]

end Foosball
